import Mathlib

/-!
Verification development for the claudia per-chat task/notification
scheduling engine.  The Python source (claudia.py, storage.py,
task_tools.py) is shallowly embedded below: pure functions become Lean
functions, the mutable per-chat state (task list, scheduler registry,
stored settings) is passed explicitly, machine timestamps are modelled as
integers (seconds on an abstract clock), and the standard-library
timestamp parser datetime.fromisoformat is abstracted as an explicit
`parse : String -> Option Int` parameter (the scheduler logic never looks
inside it).  Fallible paths (uncaught Python exceptions) are modelled with
an explicit `raised` flag.
-/

namespace Claudia

/-- Python truthiness of an optional string: None and the empty string are
falsy, every other string is truthy.  Models `task.get("...")` used in a
boolean context. -/
def strTruthy : Option String → Bool
  | none => false
  | some s => !(s == "")

/-- ASCII lowering of a string, modelling Python str.lower on the ASCII
inputs that occur in this program. -/
def pyLower (s : String) : String := String.mk (s.toList.map Char.toLower)

/-- Strip leading and trailing whitespace, modelling Python str.strip. -/
def pyStrip (s : String) : String :=
  String.mk (((s.toList.dropWhile Char.isWhitespace).reverse.dropWhile
      Char.isWhitespace).reverse)

/-- Helper for `pySplitColon`: accumulates the current field (reversed). -/
def splitColonAux : List Char → List Char → List String
  | [], acc => [String.mk acc.reverse]
  | c :: rest, acc =>
    if c = ':' then String.mk acc.reverse :: splitColonAux rest []
    else splitColonAux rest (c :: acc)

/-- Model of Python s.split(":"): the empty string yields [""], a separator
at either end yields an empty field there. -/
def pySplitColon (s : String) : List String := splitColonAux s.toList []

/-- Helper: decimal value of a digit run; fails on any non-digit. -/
def digitsValAux : List Char → Nat → Option Nat
  | [], acc => some acc
  | c :: rest, acc =>
    if c.isDigit then digitsValAux rest (acc * 10 + (c.toNat - 48)) else none

/-- Core of `pyInt` after whitespace stripping: optional sign then a
non-empty digit run. -/
def pyIntCore : List Char → Option Int
  | [] => none
  | '-' :: rest =>
    match rest with
    | [] => none
    | _ => (digitsValAux rest 0).map (fun n => -(Int.ofNat n))
  | '+' :: rest =>
    match rest with
    | [] => none
    | _ => (digitsValAux rest 0).map Int.ofNat
  | cs => (digitsValAux cs 0).map Int.ofNat

/-- Model of Python int(s) on the decimal strings this program feeds it:
strip whitespace, optional sign, non-empty digit run; anything else raises
ValueError, modelled as `none`. -/
def pyInt (s : String) : Option Int :=
  pyIntCore (((s.toList.dropWhile Char.isWhitespace).reverse.dropWhile
      Char.isWhitespace).reverse)

/-- Task record as stored by TaskStorage (storage.py): the fields of the
dict built in TaskStorage.add_task. -/
structure Task where
  id : String
  title : String
  priority : String
  status : String
  remind_at : Option String
  reminded_at : Option String
  created_at : String
  completed_at : Option String
deriving DecidableEq

/-- Live reminder timer handle: the job object created by
application.job_queue.run_once in schedule_pending_reminders, carrying the
data dict it was armed with and the delay it was scheduled at. -/
structure Job where
  chat_id : Int
  task_id : String
  remind_at : String
  delay : Int
deriving DecidableEq

/-- Lookup in the reminder registry dict (bot_data["reminder_jobs"]),
keyed by (chat_id, task_id). -/
def dictGet : List ((Int × String) × Job) → (Int × String) → Option Job
  | [], _ => none
  | e :: rest, k => if e.1 = k then some e.2 else dictGet rest k

/-- Update-or-insert in the registry dict; an existing key keeps its
position (Python dict update semantics), a new key is appended. -/
def dictSet : List ((Int × String) × Job) → (Int × String) → Job →
    List ((Int × String) × Job)
  | [], k, v => [(k, v)]
  | e :: rest, k, v => if e.1 = k then (k, v) :: rest else e :: dictSet rest k v

/-- Removal from the registry dict, modelling reminder_jobs.pop(key, None). -/
def dictPop : List ((Int × String) × Job) → (Int × String) →
    List ((Int × String) × Job)
  | [], _ => []
  | e :: rest, k => if e.1 = k then rest else e :: dictPop rest k

/-- Scheduler state threaded through reconciliation: the registry dict plus
append-only logs of every run_once call (timers armed) and every
schedule_removal call (timers cancelled), so churn is observable. -/
structure SchedulerState where
  reminder_jobs : List ((Int × String) × Job)
  scheduled_log : List Job
  cancelled_log : List Job
deriving DecidableEq

/-- One iteration of the task loop in schedule_pending_reminders
(claudia.py lines 215-243): skip tasks with no truthy remind_at, with a
truthy reminded_at, completed tasks, and tasks whose remind_at fails to
parse; otherwise compute the clamped delay, skip if the registry already
holds a matching timer, cancel a mismatching one, and arm a new timer. -/
def schedulePendingStep (parse : String → Option Int) (now : Int)
    (chat_id : Int) (st : SchedulerState) (task : Task) : SchedulerState :=
  match task.remind_at with
  | none => st
  | some ra =>
    if ra == "" || strTruthy task.reminded_at then st
    else if task.status == "completed" then st
    else
      match parse ra with
      | none => st
      | some remind_time =>
        let delay0 := remind_time - now
        let delay := if delay0 < 0 then 0 else delay0
        let key := (chat_id, task.id)
        let job : Job := ⟨chat_id, task.id, ra, delay⟩
        match dictGet st.reminder_jobs key with
        | some existing =>
          if existing.remind_at == ra then st
          else
            { reminder_jobs := dictSet st.reminder_jobs key job,
              scheduled_log := st.scheduled_log ++ [job],
              cancelled_log := st.cancelled_log ++ [existing] }
        | none =>
          { reminder_jobs := dictSet st.reminder_jobs key job,
            scheduled_log := st.scheduled_log ++ [job],
            cancelled_log := st.cancelled_log }

/-- Reminder reconciliation (claudia.py schedule_pending_reminders): the
task loop as a fold over the chat's task list. -/
def schedule_pending_reminders (parse : String → Option Int) (now : Int)
    (chat_id : Int) (tasks : List Task) (st : SchedulerState) :
    SchedulerState :=
  tasks.foldl (schedulePendingStep parse now chat_id) st

/-- Eligibility as tested by the loop guards of schedule_pending_reminders:
a task reaches the arming code exactly when this is true. -/
def stepActive (parse : String → Option Int) (task : Task) : Bool :=
  match task.remind_at with
  | none => false
  | some ra =>
    if ra == "" || strTruthy task.reminded_at then false
    else if task.status == "completed" then false
    else (parse ra).isSome

/-- The job armed by the run_once call for a task with remind_at string ra
parsing to time tv: the delay is tv - now clamped at zero. -/
def armJob (chat_id : Int) (task_id ra : String) (tv now : Int) : Job :=
  ⟨chat_id, task_id, ra, if tv - now < 0 then 0 else tv - now⟩

/-- TaskStorage.mark_reminded: set reminded_at on the first task with the
given id (ids are unique in practice) and persist. -/
def mark_reminded : List Task → String → String → List Task
  | [], _, _ => []
  | t :: rest, tid, nowStr =>
    if t.id == tid then { t with reminded_at := some nowStr } :: rest
    else t :: mark_reminded rest tid nowStr

/-- TaskStorage.set_reminder: on the first task with the given id, set
remind_at and clear reminded_at; returns the updated task, or None when no
task has that id. -/
def set_reminder : List Task → String → String → List Task × Option Task
  | [], _, _ => ([], none)
  | t :: rest, tid, ra =>
    if t.id == tid then
      (({ t with remind_at := some ra, reminded_at := none } : Task) :: rest,
       some { t with remind_at := some ra, reminded_at := none })
    else
      let r := set_reminder rest tid ra
      (t :: r.1, r.2)

/-- Result of one reminder timer fire (claudia.py reminder_callback): the
task list and registry afterwards, the messages sent, and whether the
send_message call raised (the exception then propagates before any store
write). -/
structure FireOutcome where
  tasks : List Task
  reminder_jobs : List ((Int × String) × Job)
  sent : List String
  raised : Bool
deriving DecidableEq

/-- Model of reminder_callback (claudia.py lines 63-90).  The job data
supplies chat_id, task_id and the remind_at value the timer was armed
with; `deliverOk` models whether context.bot.send_message succeeds;
`nowStr` is the datetime.now().isoformat() written by mark_reminded.  The
callback re-reads the task, no-ops when it is missing, already reminded,
completed, or its current remind_at differs from the armed value;
otherwise it sends the message, then marks the task reminded and pops the
registry entry.  A failed send raises before mark_reminded runs. -/
def reminder_callback (deliverOk : Bool) (nowStr : String) (chat_id : Int)
    (task_id remind_at : String) (tasks : List Task)
    (reminder_jobs : List ((Int × String) × Job)) : FireOutcome :=
  if task_id == "" || remind_at == "" then ⟨tasks, reminder_jobs, [], false⟩
  else
    match tasks.find? (fun t => t.id == task_id) with
    | none => ⟨tasks, reminder_jobs, [], false⟩
    | some task =>
      if strTruthy task.reminded_at || task.status == "completed" then
        ⟨tasks, reminder_jobs, [], false⟩
      else if !(task.remind_at == some remind_at) then
        ⟨tasks, reminder_jobs, [], false⟩
      else if !deliverOk then ⟨tasks, reminder_jobs, [], true⟩
      else
        ⟨mark_reminded tasks task_id nowStr,
         dictPop reminder_jobs (chat_id, task_id),
         ["Reminder: " ++ task.title], false⟩

/-- Recurring daily digest timer handle, carrying the wall-clock time it
was installed for (run_daily with time(hour, minute, CET_TZ)). -/
structure DigestJob where
  hour : Int
  minute : Int
deriving DecidableEq

/-- Digest scheduler state for one chat: the (at most one) live digest job
from bot_data["daily_summary_jobs"], plus a log of cancelled jobs. -/
structure DigestState where
  daily_job : Option DigestJob
  cancelled : List DigestJob
deriving DecidableEq

/-- Model of the try-block `hour, minute = map(int, time_str.split(":"))`
in schedule_daily_summary: None models a caught ValueError (wrong field
count or non-integer field). -/
def parseHM (s : String) : Option (Int × Int) :=
  match pySplitColon s with
  | [a, b] =>
    match pyInt a, pyInt b with
    | some h, some m => some (h, m)
    | _, _ => none
  | _ => none

/-- Model of schedule_daily_summary (claudia.py lines 246-273) for one
chat.  A falsy stored time cancels any live digest job; a stored time
whose int parsing raises is silently ignored (state untouched, no error
reported); otherwise the existing job is cancelled and a new daily job is
installed at the parsed hour and minute.  The Bool is true when the
datetime.time constructor raises an uncaught ValueError (hour or minute
out of range) after the old job was already cancelled. -/
def schedule_daily_summary (time_str : Option String) (st : DigestState) :
    DigestState × Bool :=
  if !(strTruthy time_str) then
    match st.daily_job with
    | some j => (⟨none, st.cancelled ++ [j]⟩, false)
    | none => (st, false)
  else
    match parseHM (time_str.getD ("")) with
    | none => (st, false)
    | some hm =>
      let st1 : DigestState :=
        match st.daily_job with
        | some j => ⟨none, st.cancelled ++ [j]⟩
        | none => st
      if hm.1 < 0 || 23 < hm.1 || hm.2 < 0 || 59 < hm.2 then (st1, true)
      else (⟨some ⟨hm.1, hm.2⟩, st1.cancelled⟩, false)

/-- Extension of the regex raw string in task_tools.py line 157.  The
source writes re.match(r"^\x7b...") with pattern characters
caret, backslash, backslash, d, open-brace, 2, close-brace, colon,
backslash, backslash, d, open-brace, 2, close-brace, dollar: inside a raw
string the doubled backslash is the regex escape for one literal
backslash character, so the pattern matches exactly a literal backslash,
then "dd", then ":", then a literal backslash, then "dd" (the dollar also
admits one trailing newline, unreachable after strip()).  It therefore
never matches any digit string such as "09:30". -/
def hhmm_regex_match (s : String) : Bool :=
  s == "\\dd:\\dd" || s == "\\dd:\\dd\n"

/-- Reply of the set_daily_summary tool: an is_error JSON response, an ok
response carrying the stored value, or an uncaught exception escaping the
tool body. -/
inductive SummaryReply where
  | errorReply (msg : String)
  | okReply (value : Option String)
  | crashReply
deriving DecidableEq

/-- Zero-padded two-digit rendering used by f-strings like f"{hour:02d}". -/
def fmtInt2 (n : Int) : String :=
  if 0 ≤ n ∧ n < 10 then "0" ++ toString n else toString n

/-- Model of the set_daily_summary tool (task_tools.py lines 146-175)
acting on the stored settings value daily_summary_time (storage.py
set_daily_summary_time: a truthy value is stored, a falsy one removes
the key).  Returns the stored value afterwards and the reply. -/
def set_daily_summary (stored : Option String) (timeArg : Option String) :
    Option String × SummaryReply :=
  let value := pyLower (pyStrip (timeArg.getD ("")))
  if value == "" then (stored, .errorReply ("time is required"))
  else if value == "off" || value == "disable" || value == "disabled" ||
      value == "none" then
    (none, .okReply none)
  else if !(hhmm_regex_match value) then
    (stored, .errorReply ("time must be HH:MM (24h) or \x27off\x27"))
  else
    match pySplitColon value with
    | [hs, ms] =>
      match pyInt hs, pyInt ms with
      | some hour, some minute =>
        if 23 < hour || 59 < minute then
          (stored, .errorReply ("time must be valid HH:MM"))
        else
          let fv := fmtInt2 hour ++ ":" ++ fmtInt2 minute
          (some fv, .okReply (some fv))
      | _, _ => (stored, .crashReply)
    | _ => (stored, .crashReply)

/-- TaskStorage.add_task (storage.py lines 61-80): build the task record
(id from uuid, priority lowercased, status pending, timestamps from the
clock) and append it. -/
def storage_add_task (tasks : List Task) (newId nowIso : String)
    (title priority : String) (remind_at : Option String) :
    List Task × Task :=
  let task : Task :=
    { id := newId, title := title, priority := pyLower priority,
      status := "pending", remind_at := remind_at, reminded_at := none,
      created_at := nowIso, completed_at := none }
  (tasks ++ [task], task)

/-- Reply of the add_task tool. -/
inductive AddTaskReply where
  | errorReply (msg : String)
  | okReply (task : Task)
deriving DecidableEq

/-- Model of the add_task tool (task_tools.py lines 83-97): an empty or
missing title is rejected; a priority outside low/medium/high (including
a missing one, which defaults to "medium") is coerced to "medium"; the
task is then appended through TaskStorage.add_task. -/
def add_task (tasks : List Task) (newId nowIso : String)
    (titleArg priorityArg : Option String) : List Task × AddTaskReply :=
  let title := titleArg.getD ("")
  let priority := priorityArg.getD ("medium")
  if title == "" then (tasks, .errorReply ("Task title is required"))
  else
    let priority :=
      if priority == "low" || priority == "medium" || priority == "high"
      then priority else "medium"
    let r := storage_add_task tasks newId nowIso title priority none
    (r.1, .okReply r.2)

/-- The sort key dict priority_order = (high 0, medium 1, low 2) read with
.get(priority, 1) in daily_summary_callback. -/
def priority_order_get (p : String) : Int :=
  if p == "high" then 0 else if p == "medium" then 1
  else if p == "low" then 2 else 1

/-- The label dict priority_labels read with .get(priority, "MED"). -/
def priority_label (p : String) : String :=
  if p == "high" then "HIGH" else if p == "medium" then "MED"
  else if p == "low" then "LOW" else "MED"

/-- Comparison underlying Python sorted(pending, key=priority_order.get):
sorted is a stable ascending sort, modelled extensionally by Mathlib's
stable insertionSort with this relation. -/
def taskLE (a b : Task) : Prop :=
  priority_order_get a.priority ≤ priority_order_get b.priority

instance : DecidableRel taskLE := fun a b =>
  Int.decLe (priority_order_get a.priority) (priority_order_get b.priority)

instance : IsTotal Task taskLE := ⟨fun a b =>
  Int.le_total (priority_order_get a.priority) (priority_order_get b.priority)⟩

instance : IsTrans Task taskLE := ⟨fun _ _ _ hab hbc => le_trans hab hbc⟩

/-- The pending-task order produced inside daily_summary_callback:
filter to status pending, then the stable priority sort. -/
def sorted_pending (tasks : List Task) : List Task :=
  List.insertionSort taskLE (tasks.filter (fun t => t.status == "pending"))

/-- The per-task line of the digest body. -/
def digest_line (t : Task) : String :=
  "- [" ++ priority_label t.priority ++ "] " ++ t.title

/-- Model of daily_summary_callback (claudia.py lines 182-207): recompute
the pending list from the current task store and emit the header plus one
line per pending task in stable priority order. -/
def daily_summary_lines (tasks : List Task) : List String :=
  let pending := tasks.filter (fun t => t.status == "pending")
  let high_pending := pending.filter (fun t => t.priority == "high")
  let n := pending.length
  let nh := high_pending.length
  ["Daily summary", "Pending: " ++ toString n ++ " (High: " ++
      toString nh ++ ")"] ++
    (List.insertionSort taskLE pending).map digest_line

/-! Helper lemmas about the registry dict. -/

lemma dictGet_dictSet_self (d : List ((Int × String) × Job))
    (k : Int × String) (v : Job) : dictGet (dictSet d k v) k = some v := by
  induction d with
  | nil => simp [dictSet, dictGet]
  | cons e rest ih =>
    by_cases h : e.1 = k
    · simp [dictSet, dictGet, h]
    · simp [dictSet, dictGet, h, ih]

lemma dictGet_dictSet_ne (d : List ((Int × String) × Job))
    (k k2 : Int × String) (v : Job) (h : k ≠ k2) :
    dictGet (dictSet d k v) k2 = dictGet d k2 := by
  induction d with
  | nil => simp [dictSet, dictGet, h]
  | cons e rest ih =>
    by_cases he : e.1 = k
    · simp [dictSet, dictGet, he, h]
    · simp only [dictSet, he, if_false, dictGet]
      by_cases he2 : e.1 = k2
      · simp [he2]
      · simp [he2, ih]

lemma dictGet_eq_none_of_not_mem (k : Int × String) :
    ∀ d : List ((Int × String) × Job), k ∉ d.map Prod.fst →
      dictGet d k = none := by
  intro d
  induction d with
  | nil => intro _; rfl
  | cons e rest ih =>
    intro h
    simp only [List.map_cons, List.mem_cons, not_or] at h
    have hne : e.1 ≠ k := fun hc => h.1 hc.symm
    simp only [dictGet, if_neg hne]
    exact ih h.2

lemma dictGet_dictPop_self (k : Int × String) :
    ∀ d : List ((Int × String) × Job), (d.map Prod.fst).Nodup →
      dictGet (dictPop d k) k = none := by
  intro d
  induction d with
  | nil => intro _; rfl
  | cons e rest ih =>
    intro hnd
    simp only [List.map_cons, List.nodup_cons] at hnd
    by_cases he : e.1 = k
    · simp only [dictPop, if_pos he]
      exact dictGet_eq_none_of_not_mem k rest (he ▸ hnd.1)
    · simp only [dictPop, if_neg he, dictGet, if_neg he]
      exact ih hnd.2

/-! Characterization of one loop iteration of schedule_pending_reminders:
either the task fails a guard and the state is untouched, or it is
eligible and the iteration leaves a matching timer alone, replaces a
mismatching one (cancelling it), or arms a fresh one. -/

lemma schedulePendingStep_char (parse : String → Option Int) (now : Int)
    (chat_id : Int) (st : SchedulerState) (t : Task) :
    (stepActive parse t = false ∧
       schedulePendingStep parse now chat_id st t = st) ∨
    (∃ ra tv, t.remind_at = some ra ∧ stepActive parse t = true ∧
      parse ra = some tv ∧
      ((∃ j, dictGet st.reminder_jobs (chat_id, t.id) = some j ∧
          j.remind_at = ra ∧
          schedulePendingStep parse now chat_id st t = st) ∨
       (∃ j, dictGet st.reminder_jobs (chat_id, t.id) = some j ∧
          j.remind_at ≠ ra ∧
          schedulePendingStep parse now chat_id st t =
            ⟨dictSet st.reminder_jobs (chat_id, t.id)
                (armJob chat_id t.id ra tv now),
             st.scheduled_log ++ [armJob chat_id t.id ra tv now],
             st.cancelled_log ++ [j]⟩) ∨
       (dictGet st.reminder_jobs (chat_id, t.id) = none ∧
          schedulePendingStep parse now chat_id st t =
            ⟨dictSet st.reminder_jobs (chat_id, t.id)
                (armJob chat_id t.id ra tv now),
             st.scheduled_log ++ [armJob chat_id t.id ra tv now],
             st.cancelled_log⟩))) := by
  cases hra : t.remind_at with
  | none =>
    left
    exact ⟨by simp [stepActive, hra], by simp [schedulePendingStep, hra]⟩
  | some ra =>
    by_cases h1 : (ra == "" || strTruthy t.reminded_at) = true
    · left
      exact ⟨by simp [stepActive, hra, h1],
             by simp [schedulePendingStep, hra, h1]⟩
    · by_cases h2 : (t.status == "completed") = true
      · left
        exact ⟨by simp [stepActive, hra, h1, h2],
               by simp [schedulePendingStep, hra, h1, h2]⟩
      · cases hp : parse ra with
        | none =>
          left
          exact ⟨by simp [stepActive, hra, h1, h2, hp],
                 by simp [schedulePendingStep, hra, h1, h2, hp]⟩
        | some tv =>
          right
          refine ⟨ra, tv, rfl, by simp [stepActive, hra, h1, h2, hp], hp, ?_⟩
          cases hd : dictGet st.reminder_jobs (chat_id, t.id) with
          | some j =>
            by_cases hj : (j.remind_at == ra) = true
            · left
              refine ⟨j, rfl, by simpa using hj, ?_⟩
              simp [schedulePendingStep, hra, h1, h2, hp, hd, hj]
            · right; left
              refine ⟨j, rfl, by simpa using hj, ?_⟩
              simp [schedulePendingStep, armJob, hra, h1, h2, hp, hd, hj]
          | none =>
            right; right
            refine ⟨rfl, ?_⟩
            simp [schedulePendingStep, armJob, hra, h1, h2, hp, hd]

lemma step_of_not_active (parse : String → Option Int) (now chat_id : Int)
    (st : SchedulerState) (t : Task) (h : stepActive parse t = false) :
    schedulePendingStep parse now chat_id st t = st := by
  rcases schedulePendingStep_char parse now chat_id st t with ⟨_, he⟩ | ⟨_, _, _, ha, _⟩
  · exact he
  · rw [h] at ha; cases ha

lemma step_of_matching (parse : String → Option Int) (now chat_id : Int)
    (st : SchedulerState) (t : Task) (ra : String) (j : Job)
    (hra : t.remind_at = some ra)
    (hd : dictGet st.reminder_jobs (chat_id, t.id) = some j)
    (hj : j.remind_at = ra) :
    schedulePendingStep parse now chat_id st t = st := by
  rcases schedulePendingStep_char parse now chat_id st t with ⟨_, he⟩ |
    ⟨ra2, tv, hra2, _, _, ⟨_, _, _, he⟩ | ⟨j2, hd2, hj2, _⟩ | ⟨hd2, _⟩⟩
  · exact he
  · exact he
  · rw [hra] at hra2
    cases hra2
    rw [hd] at hd2
    cases hd2
    exact absurd hj hj2
  · rw [hd] at hd2; cases hd2

lemma step_dict_other (parse : String → Option Int) (now chat_id : Int)
    (st : SchedulerState) (t : Task) (k : Int × String)
    (hk : k ≠ (chat_id, t.id)) :
    dictGet (schedulePendingStep parse now chat_id st t).reminder_jobs k =
      dictGet st.reminder_jobs k := by
  rcases schedulePendingStep_char parse now chat_id st t with ⟨_, he⟩ |
    ⟨ra, tv, _, _, _, ⟨_, _, _, he⟩ | ⟨j, _, _, he⟩ | ⟨_, he⟩⟩ <;>
    rw [he] <;>
    first
      | rfl
      | exact dictGet_dictSet_ne st.reminder_jobs (chat_id, t.id) k
          (armJob chat_id t.id ra tv now) (fun hc => hk hc.symm)

lemma step_own_key (parse : String → Option Int) (now chat_id : Int)
    (st : SchedulerState) (t : Task) (ra : String)
    (hact : stepActive parse t = true) (hra : t.remind_at = some ra) :
    ∃ j, dictGet (schedulePendingStep parse now chat_id st t).reminder_jobs
        (chat_id, t.id) = some j ∧ j.remind_at = ra := by
  rcases schedulePendingStep_char parse now chat_id st t with ⟨hna, _⟩ |
    ⟨ra2, tv, hra2, _, _, ⟨j, hd, hj, he⟩ | ⟨j, hd, hj, he⟩ | ⟨hd, he⟩⟩
  · rw [hact] at hna; cases hna
  · rw [hra] at hra2; cases hra2
    exact ⟨j, by rw [he, hd], hj⟩
  · rw [hra] at hra2; cases hra2
    refine ⟨armJob chat_id t.id ra tv now, ?_, rfl⟩
    rw [he]
    exact dictGet_dictSet_self st.reminder_jobs (chat_id, t.id) _
  · rw [hra] at hra2; cases hra2
    refine ⟨armJob chat_id t.id ra tv now, ?_, rfl⟩
    rw [he]
    exact dictGet_dictSet_self st.reminder_jobs (chat_id, t.id) _

lemma step_scheduled_sub (parse : String → Option Int) (now chat_id : Int)
    (st : SchedulerState) (t : Task) (j : Job)
    (hj : j ∈ (schedulePendingStep parse now chat_id st t).scheduled_log) :
    j ∈ st.scheduled_log ∨
      (stepActive parse t = true ∧ ∃ ra tv, t.remind_at = some ra ∧
        parse ra = some tv ∧ j = armJob chat_id t.id ra tv now) := by
  rcases schedulePendingStep_char parse now chat_id st t with ⟨_, he⟩ |
    ⟨ra, tv, hra, hact, hp, ⟨_, _, _, he⟩ | ⟨j2, _, _, he⟩ | ⟨_, he⟩⟩ <;>
    rw [he] at hj
  · exact Or.inl hj
  · exact Or.inl hj
  all_goals
    rcases List.mem_append.mp hj with h | h
    · exact Or.inl h
    · exact Or.inr ⟨hact, ra, tv, hra, hp,
        by simpa using h⟩

lemma step_cancelled_sub (parse : String → Option Int) (now chat_id : Int)
    (st : SchedulerState) (t : Task) (j : Job)
    (hj : j ∈ (schedulePendingStep parse now chat_id st t).cancelled_log) :
    j ∈ st.cancelled_log ∨ stepActive parse t = true := by
  rcases schedulePendingStep_char parse now chat_id st t with ⟨_, he⟩ |
    ⟨ra, tv, _, hact, _, ⟨_, _, _, he⟩ | ⟨j2, _, _, he⟩ | ⟨_, he⟩⟩ <;>
    rw [he] at hj
  · exact Or.inl hj
  · exact Or.inl hj
  · exact Or.inr hact
  · exact Or.inl hj

lemma step_scheduled_mono (parse : String → Option Int) (now chat_id : Int)
    (st : SchedulerState) (t : Task) (j : Job) (hj : j ∈ st.scheduled_log) :
    j ∈ (schedulePendingStep parse now chat_id st t).scheduled_log := by
  rcases schedulePendingStep_char parse now chat_id st t with ⟨_, he⟩ |
    ⟨_, _, _, _, _, ⟨_, _, _, he⟩ | ⟨_, _, _, he⟩ | ⟨_, he⟩⟩ <;>
    rw [he]
  · exact hj
  · exact hj
  · exact List.mem_append_left _ hj
  · exact List.mem_append_left _ hj

lemma run_cons (parse : String → Option Int) (now chat_id : Int)
    (t : Task) (l : List Task) (st : SchedulerState) :
    schedule_pending_reminders parse now chat_id (t :: l) st =
      schedule_pending_reminders parse now chat_id l
        (schedulePendingStep parse now chat_id st t) := rfl

lemma run_key_untouched (parse : String → Option Int) (now chat_id : Int)
    (k : Int × String) :
    ∀ (tasks : List Task) (st : SchedulerState),
      (∀ t ∈ tasks, (chat_id, t.id) = k → stepActive parse t = false) →
      dictGet (schedule_pending_reminders parse now chat_id tasks
          st).reminder_jobs k = dictGet st.reminder_jobs k := by
  intro tasks
  induction tasks with
  | nil => intro st _; rfl
  | cons t l ih =>
    intro st h
    rw [run_cons]
    by_cases hk : (chat_id, t.id) = k
    · rw [step_of_not_active parse now chat_id st t
        (h t (List.mem_cons_self t l) hk)]
      exact ih st (fun u hu => h u (List.mem_cons_of_mem t hu))
    · rw [ih _ (fun u hu => h u (List.mem_cons_of_mem t hu))]
      exact step_dict_other parse now chat_id st t k (fun hc => hk hc.symm)

lemma run_all_inactive (parse : String → Option Int) (now chat_id : Int) :
    ∀ (tasks : List Task) (st : SchedulerState),
      (∀ t ∈ tasks, stepActive parse t = false) →
      schedule_pending_reminders parse now chat_id tasks st = st := by
  intro tasks
  induction tasks with
  | nil => intro st _; rfl
  | cons t l ih =>
    intro st h
    rw [run_cons, step_of_not_active parse now chat_id st t
      (h t (List.mem_cons_self t l))]
    exact ih st (fun u hu => h u (List.mem_cons_of_mem t hu))

lemma run_scheduled_sub (parse : String → Option Int) (now chat_id : Int) :
    ∀ (tasks : List Task) (st : SchedulerState) (j : Job),
      j ∈ (schedule_pending_reminders parse now chat_id tasks
          st).scheduled_log →
      j ∈ st.scheduled_log ∨ ∃ t ∈ tasks, stepActive parse t = true ∧
        ∃ ra tv, t.remind_at = some ra ∧ parse ra = some tv ∧
          j = armJob chat_id t.id ra tv now := by
  intro tasks
  induction tasks with
  | nil => intro st j hj; exact Or.inl hj
  | cons t l ih =>
    intro st j hj
    rw [run_cons] at hj
    rcases ih _ j hj with h | ⟨u, hu, rest⟩
    · rcases step_scheduled_sub parse now chat_id st t j h with h2 | ⟨ha, hr⟩
      · exact Or.inl h2
      · exact Or.inr ⟨t, List.mem_cons_self t l, ha, hr⟩
    · exact Or.inr ⟨u, List.mem_cons_of_mem t hu, rest⟩

lemma run_cancelled_sub (parse : String → Option Int) (now chat_id : Int) :
    ∀ (tasks : List Task) (st : SchedulerState) (j : Job),
      j ∈ (schedule_pending_reminders parse now chat_id tasks
          st).cancelled_log →
      j ∈ st.cancelled_log ∨ ∃ t ∈ tasks, stepActive parse t = true := by
  intro tasks
  induction tasks with
  | nil => intro st j hj; exact Or.inl hj
  | cons t l ih =>
    intro st j hj
    rw [run_cons] at hj
    rcases ih _ j hj with h | ⟨u, hu, hua⟩
    · rcases step_cancelled_sub parse now chat_id st t j h with h2 | ha
      · exact Or.inl h2
      · exact Or.inr ⟨t, List.mem_cons_self t l, ha⟩
    · exact Or.inr ⟨u, List.mem_cons_of_mem t hu, hua⟩

lemma run_scheduled_mono (parse : String → Option Int) (now chat_id : Int) :
    ∀ (tasks : List Task) (st : SchedulerState) (j : Job),
      j ∈ st.scheduled_log →
      j ∈ (schedule_pending_reminders parse now chat_id tasks
          st).scheduled_log := by
  intro tasks
  induction tasks with
  | nil => intro st j hj; exact hj
  | cons t l ih =>
    intro st j hj
    rw [run_cons]
    exact ih _ j (step_scheduled_mono parse now chat_id st t j hj)

lemma run_own_key_after (parse : String → Option Int) (now chat_id : Int) :
    ∀ (tasks : List Task) (st : SchedulerState),
      (tasks.map Task.id).Nodup →
      ∀ t ∈ tasks, stepActive parse t = true →
      ∀ ra, t.remind_at = some ra →
      ∃ j, dictGet (schedule_pending_reminders parse now chat_id tasks
          st).reminder_jobs (chat_id, t.id) = some j ∧ j.remind_at = ra := by
  intro tasks
  induction tasks with
  | nil => intro st _ t ht; cases ht
  | cons u l ih =>
    intro st hnd t ht hact ra hra
    simp only [List.map_cons, List.nodup_cons] at hnd
    rcases List.mem_cons.mp ht with he | hm
    · subst he
      rcases step_own_key parse now chat_id st t ra hact hra with ⟨j, hj, hjr⟩
      refine ⟨j, ?_, hjr⟩
      rw [run_cons]
      rw [run_key_untouched parse now chat_id (chat_id, t.id) l _ ?_]
      · exact hj
      · intro v hv hvk
        exact absurd (congrArg Prod.snd hvk) (by
          simp only []
          intro hc
          exact hnd.1 (hc ▸ List.mem_map_of_mem Task.id hv))
    · rw [run_cons]
      exact ih _ hnd.2 t hm hact ra hra

lemma run_fixed (parse : String → Option Int) (now chat_id : Int) :
    ∀ (tasks : List Task) (st : SchedulerState),
      (∀ t ∈ tasks, stepActive parse t = true →
        ∀ ra, t.remind_at = some ra →
        ∃ j, dictGet st.reminder_jobs (chat_id, t.id) = some j ∧
          j.remind_at = ra) →
      schedule_pending_reminders parse now chat_id tasks st = st := by
  intro tasks
  induction tasks with
  | nil => intro st _; rfl
  | cons t l ih =>
    intro st h
    have hstep : schedulePendingStep parse now chat_id st t = st := by
      by_cases hact : stepActive parse t = true
      · cases hra : t.remind_at with
        | none => simp [stepActive, hra] at hact
        | some ra =>
          rcases h t (List.mem_cons_self t l) hact ra hra with ⟨j, hd, hj⟩
          exact step_of_matching parse now chat_id st t ra j hra hd hj
      · exact step_of_not_active parse now chat_id st t
          (Bool.eq_false_iff.mpr hact ▸ rfl)
    rw [run_cons, hstep]
    exact ih st (fun u hu => h u (List.mem_cons_of_mem t hu))

lemma step_of_mismatch (parse : String → Option Int) (now chat_id : Int)
    (st : SchedulerState) (t : Task) (ra : String) (tv : Int) (j : Job)
    (hact : stepActive parse t = true) (hra : t.remind_at = some ra)
    (hp : parse ra = some tv)
    (hd : dictGet st.reminder_jobs (chat_id, t.id) = some j)
    (hj : j.remind_at ≠ ra) :
    schedulePendingStep parse now chat_id st t =
      ⟨dictSet st.reminder_jobs (chat_id, t.id) (armJob chat_id t.id ra tv now),
       st.scheduled_log ++ [armJob chat_id t.id ra tv now],
       st.cancelled_log ++ [j]⟩ := by
  rcases schedulePendingStep_char parse now chat_id st t with ⟨hna, _⟩ |
    ⟨ra2, tv2, hra2, _, hp2, ⟨j2, hd2, hj2, _⟩ | ⟨j2, hd2, _, he⟩ | ⟨hd2, _⟩⟩
  · rw [hact] at hna; cases hna
  · rw [hra] at hra2; cases hra2
    rw [hd] at hd2; cases hd2
    exact absurd hj2 hj
  · rw [hra] at hra2; cases hra2
    rw [hp] at hp2; cases hp2
    rw [hd] at hd2; cases hd2
    exact he
  · rw [hd] at hd2; cases hd2

lemma step_of_fresh (parse : String → Option Int) (now chat_id : Int)
    (st : SchedulerState) (t : Task) (ra : String) (tv : Int)
    (hact : stepActive parse t = true) (hra : t.remind_at = some ra)
    (hp : parse ra = some tv)
    (hd : dictGet st.reminder_jobs (chat_id, t.id) = none) :
    schedulePendingStep parse now chat_id st t =
      ⟨dictSet st.reminder_jobs (chat_id, t.id) (armJob chat_id t.id ra tv now),
       st.scheduled_log ++ [armJob chat_id t.id ra tv now],
       st.cancelled_log⟩ := by
  rcases schedulePendingStep_char parse now chat_id st t with ⟨hna, _⟩ |
    ⟨ra2, tv2, hra2, _, hp2, ⟨j2, hd2, _, _⟩ | ⟨j2, hd2, _, _⟩ | ⟨_, he⟩⟩
  · rw [hact] at hna; cases hna
  · rw [hd] at hd2; cases hd2
  · rw [hd] at hd2; cases hd2
  · rw [hra] at hra2; cases hra2
    rw [hp] at hp2; cases hp2
    exact he

lemma stepActive_false_of_parse_none (parse : String → Option Int)
    (t : Task) (s : String) (hra : t.remind_at = some s)
    (hp : parse s = none) : stepActive parse t = false := by
  simp only [stepActive, hra]
  split
  · rfl
  · split
    · rfl
    · simp [hp]

lemma stepActive_false_of_reminded (parse : String → Option Int)
    (t : Task) (hr : strTruthy t.reminded_at = true) :
    stepActive parse t = false := by
  cases hra : t.remind_at with
  | none => simp [stepActive, hra]
  | some ra => simp [stepActive, hra, hr]

lemma stepActive_of_fields (parse : String → Option Int) (t : Task)
    (ra : String) (hra : t.remind_at = some ra) (hne : ra ≠ "")
    (hr : strTruthy t.reminded_at = false) (hs : t.status ≠ "completed")
    (hp : (parse ra).isSome = true) : stepActive parse t = true := by
  simp [stepActive, hra, hne, hr, hs, hp]

lemma run_append (parse : String → Option Int) (now chat_id : Int)
    (l1 l2 : List Task) (st : SchedulerState) :
    schedule_pending_reminders parse now chat_id (l1 ++ l2) st =
      schedule_pending_reminders parse now chat_id l2
        (schedule_pending_reminders parse now chat_id l1 st) :=
  List.foldl_append _ _ _ _

lemma clamp_eq_max (a : Int) : (if a < 0 then 0 else a) = max a 0 := by
  by_cases h : a < 0
  · simp [h, max_eq_right (le_of_lt h)]
  · simp [h, max_eq_left (le_of_not_lt h)]

lemma find?_mark_reminded (tid s : String) :
    ∀ (tasks : List Task) (task : Task),
      tasks.find? (fun t => t.id == tid) = some task →
      (mark_reminded tasks tid s).find? (fun t => t.id == tid) =
        some { task with reminded_at := some s } := by
  intro tasks
  induction tasks with
  | nil => intro task h; cases h
  | cons t rest ih =>
    intro task h
    cases ht : (t.id == tid) with
    | true =>
      simp only [List.find?_cons, ht, if_true] at h
      cases h
      simp [mark_reminded, List.find?_cons, ht]
    | false =>
      simp only [List.find?_cons, ht, if_false] at h
      simp [mark_reminded, List.find?_cons, ht]
      exact ih task h

/-! Stability of the priority sort: filtering the sorted list to one
priority rank gives exactly the same-rank tasks in their original order. -/

lemma filter_orderedInsert_pos (r : Int) (x : Task)
    (hx : priority_order_get x.priority = r) :
    ∀ l : List Task,
      (List.orderedInsert taskLE x l).filter
          (fun t => priority_order_get t.priority == r) =
        x :: l.filter (fun t => priority_order_get t.priority == r) := by
  intro l
  induction l with
  | nil => simp [List.orderedInsert, hx]
  | cons y ys ih =>
    by_cases hle : taskLE x y
    · simp [List.orderedInsert, hle, hx]
    · have hy : priority_order_get y.priority ≠ r := fun hc =>
        hle (by simp [taskLE, hx, hc])
      simp only [List.orderedInsert, if_neg hle]
      simp [List.filter_cons, hy, ih]

lemma filter_orderedInsert_neg (r : Int) (x : Task)
    (hx : priority_order_get x.priority ≠ r) :
    ∀ l : List Task,
      (List.orderedInsert taskLE x l).filter
          (fun t => priority_order_get t.priority == r) =
        l.filter (fun t => priority_order_get t.priority == r) := by
  intro l
  induction l with
  | nil => simp [List.orderedInsert, hx]
  | cons y ys ih =>
    by_cases hle : taskLE x y
    · simp [List.orderedInsert, hle, hx]
    · simp only [List.orderedInsert, if_neg hle, List.filter_cons]
      by_cases hy : priority_order_get y.priority = r
      · simp [hy, ih]
      · simp [hy, ih]

lemma filter_insertionSort (r : Int) :
    ∀ l : List Task,
      (List.insertionSort taskLE l).filter
          (fun t => priority_order_get t.priority == r) =
        l.filter (fun t => priority_order_get t.priority == r) := by
  intro l
  induction l with
  | nil => rfl
  | cons a l ih =>
    simp only [List.insertionSort]
    by_cases ha : priority_order_get a.priority = r
    · rw [filter_orderedInsert_pos r a ha, ih]
      simp [ha]
    · rw [filter_orderedInsert_neg r a ha, ih]
      simp [ha]

/-! The claim theorems. -/

/-- C1 counterexample: a chat with one completed task whose (chat 0, task
"a") timer is still live in the registry.  Running reminder reconciliation
leaves the registry entry in place and cancels nothing, so it is false
that every live timer of a no-longer-eligible task has been cancelled and
removed by the reconcile. -/
theorem C1_counterexample :
    schedule_pending_reminders (fun _ => some 0) 0 0
        [⟨"a", "Buy milk", "medium", "completed",
          some ("2024-01-01T09:00:00"), none, "c", none⟩]
        ⟨[((0, "a"), ⟨0, "a", "2024-01-01T09:00:00", 5⟩)], [], []⟩ =
      ⟨[((0, "a"), ⟨0, "a", "2024-01-01T09:00:00", 5⟩)], [], []⟩ ∧
    dictGet ([((0, "a"), (⟨0, "a", "2024-01-01T09:00:00", 5⟩ : Job))])
        (0, "a") = some ⟨0, "a", "2024-01-01T09:00:00", 5⟩ := by
  decide

/-- C1 (amended): schedule_pending_reminders performs no sweep.  A
registry entry whose key matches no eligible task (the task is completed,
deleted, its reminder cleared or unparseable, or it was already reminded)
is left in the registry untouched; if no task at all is eligible the
reconcile is the identity; and a cancellation can only ever be caused by
an eligible task replacing a mismatching timer, never by a stale entry
being swept. -/
theorem C1_no_sweep_amended (parse : String → Option Int) (now chat_id : Int)
    (tasks : List Task) (st : SchedulerState) :
    (∀ k : Int × String,
      (∀ t ∈ tasks, (chat_id, t.id) = k → stepActive parse t = false) →
      dictGet (schedule_pending_reminders parse now chat_id tasks
          st).reminder_jobs k = dictGet st.reminder_jobs k) ∧
    ((∀ t ∈ tasks, stepActive parse t = false) →
      schedule_pending_reminders parse now chat_id tasks st = st) ∧
    (∀ j, j ∈ (schedule_pending_reminders parse now chat_id tasks
          st).cancelled_log →
      j ∈ st.cancelled_log ∨ ∃ t ∈ tasks, stepActive parse t = true) :=
  ⟨fun k h => run_key_untouched parse now chat_id k tasks st h,
   fun h => run_all_inactive parse now chat_id tasks st h,
   fun j hj => run_cancelled_sub parse now chat_id tasks st j hj⟩

/-- C1 amended witness: a concrete completed task with a live entry keyed
(0, "b"); after reconcile the entry is still there. -/
theorem C1_no_sweep_amended_witness :
    dictGet (schedule_pending_reminders (fun _ => some 0) 0 0
        [⟨"b", "T", "low", "completed", some ("X"), none, "c", none⟩]
        ⟨[((0, "b"), ⟨0, "b", "X", 1⟩)], [], []⟩).reminder_jobs (0, "b") =
      some ⟨0, "b", "X", 1⟩ :=
  ((C1_no_sweep_amended (fun _ => some 0) 0 0
      [⟨"b", "T", "low", "completed", some ("X"), none, "c", none⟩]
      ⟨[((0, "b"), ⟨0, "b", "X", 1⟩)], [], []⟩).1 (0, "b")
    (by decide)).trans (by decide)

/-- C2: contrary to the claim, the set_daily_summary tool rejects the
well-formed time "09:30" (the raw-string regex in task_tools.py line 157
escapes the backslash, so it matches only the literal text backslash-d-d,
colon, backslash-d-d and never a digit time); the stored value is left
unchanged and the HH:MM error is returned.  The off keyword path still
works.  This evaluates the code at the failing input of the code_bug. -/
theorem C2_set_daily_summary_rejects_valid_time :
    set_daily_summary (some ("08:00")) (some ("09:30")) =
      (some ("08:00"),
       SummaryReply.errorReply ("time must be HH:MM (24h) or \x27off\x27")) ∧
    set_daily_summary none (some ("09:30")) =
      (none,
       SummaryReply.errorReply ("time must be HH:MM (24h) or \x27off\x27")) ∧
    set_daily_summary (some ("08:00")) (some ("off")) =
      (none, SummaryReply.okReply none) := by
  decide

/-- C7 counterexample: with stored daily_summary_time "9:3" and a live
digest job at 10:00, schedule_daily_summary does not leave the digest
state unchanged with a parse error; it cancels the 10:00 job and silently
installs a digest at the reinterpreted time 09:03. -/
theorem C7_counterexample :
    schedule_daily_summary (some ("9:3")) ⟨some ⟨10, 0⟩, []⟩ =
      (⟨some ⟨9, 3⟩, [⟨10, 0⟩]⟩, false) ∧
    (schedule_daily_summary (some ("9:3")) ⟨some ⟨10, 0⟩, []⟩).1.daily_job ≠
      some ⟨10, 0⟩ := by
  decide

/-- C7 (amended): the stored value "9:3" is not rejected: map(int, ...)
parses it and schedule_daily_summary reschedules the digest at 09:03 with
no error, cancelling any previous job.  Only a stored time whose
colon-split fields fail int conversion or unpacking (e.g. "abc") leaves
the digest state unchanged, and it does so silently, reporting nothing. -/
theorem C7_digest_invalid_time_amended (st : DigestState) :
    (schedule_daily_summary (some ("9:3")) st).1.daily_job = some ⟨9, 3⟩ ∧
    (schedule_daily_summary (some ("9:3")) st).2 = false ∧
    (∀ ts : String, ts ≠ "" → parseHM ts = none →
      schedule_daily_summary (some ts) st = (st, false)) := by
  have hp : parseHM ("9:3") = some (9, 3) := by decide
  refine ⟨?_, ?_, ?_⟩
  · cases hd : st.daily_job <;>
      simp [schedule_daily_summary, strTruthy, hp, hd]
  · cases hd : st.daily_job <;>
      simp [schedule_daily_summary, strTruthy, hp, hd]
  · intro ts hts hpm
    simp [schedule_daily_summary, strTruthy, hts, hpm]

/-- C7 amended witness at a concrete digest state and the concrete
unparseable stored value "abc". -/
theorem C7_digest_invalid_time_amended_witness :
    (schedule_daily_summary (some ("9:3")) ⟨some ⟨10, 0⟩, []⟩).1.daily_job =
      some ⟨9, 3⟩ ∧
    schedule_daily_summary (some ("abc")) ⟨some ⟨10, 0⟩, []⟩ =
      (⟨some ⟨10, 0⟩, []⟩, false) :=
  ⟨(C7_digest_invalid_time_amended ⟨some ⟨10, 0⟩, []⟩).1,
   (C7_digest_invalid_time_amended ⟨some ⟨10, 0⟩, []⟩).2.2 ("abc")
     (by decide) (by decide)⟩

/-- C5: during reminder reconciliation (a) every timer armed during the
run has delay max(remind_at - now, 0), so a past-due remind_at is clamped
to zero rather than negative; (b) an eligible task whose parsed remind_at
is not in the future and that has no live registry entry (and no earlier
task with its id) gets a timer armed with delay exactly zero rather than
being skipped; (c) a task whose remind_at fails to parse is skipped
without affecting anything done for the other tasks of the chat. -/
theorem C5_delay_clamp_and_skip (parse : String → Option Int)
    (now chat_id : Int) (st : SchedulerState) :
    (∀ (tasks : List Task) (j : Job),
      j ∈ (schedule_pending_reminders parse now chat_id tasks
          st).scheduled_log →
      j ∈ st.scheduled_log ∨
        ∃ tv, parse j.remind_at = some tv ∧ j.delay = max (tv - now) 0) ∧
    (∀ (l1 : List Task) (t : Task) (l2 : List Task) (ra : String) (tv : Int),
      (∀ u ∈ l1, u.id ≠ t.id) → stepActive parse t = true →
      t.remind_at = some ra → parse ra = some tv → tv ≤ now →
      dictGet st.reminder_jobs (chat_id, t.id) = none →
      (⟨chat_id, t.id, ra, 0⟩ : Job) ∈
        (schedule_pending_reminders parse now chat_id (l1 ++ t :: l2)
            st).scheduled_log) ∧
    (∀ (l1 : List Task) (t : Task) (l2 : List Task) (s : String),
      t.remind_at = some s → parse s = none →
      schedule_pending_reminders parse now chat_id (l1 ++ t :: l2) st =
        schedule_pending_reminders parse now chat_id (l1 ++ l2) st) := by
  refine ⟨?_, ?_, ?_⟩
  · intro tasks j hj
    rcases run_scheduled_sub parse now chat_id tasks st j hj with h |
      ⟨t, _, _, ra, tv, _, hp, hje⟩
    · exact Or.inl h
    · subst hje
      exact Or.inr ⟨tv, by simpa [armJob] using hp,
        by dsimp [armJob]; exact clamp_eq_max _⟩
  · intro l1 t l2 ra tv h1 hact hra hp htv hd
    rw [run_append, run_cons]
    have hkey : dictGet (schedule_pending_reminders parse now chat_id l1
        st).reminder_jobs (chat_id, t.id) = none := by
      rw [run_key_untouched parse now chat_id (chat_id, t.id) l1 st
        (fun u hu hk => absurd (congrArg Prod.snd hk) (h1 u hu))]
      exact hd
    rw [step_of_fresh parse now chat_id _ t ra tv hact hra hp hkey]
    apply run_scheduled_mono
    have hdelay : (if tv - now < 0 then (0 : Int) else tv - now) = 0 := by
      split
      · rfl
      · omega
    have harm : armJob chat_id t.id ra tv now = ⟨chat_id, t.id, ra, 0⟩ := by
      unfold armJob
      rw [hdelay]
    rw [← harm]
    exact List.mem_append_right _ (List.mem_singleton.mpr rfl)
  · intro l1 t l2 s hra hp
    rw [run_append, run_cons,
      step_of_not_active parse now chat_id _ t
        (stepActive_false_of_parse_none parse t s hra hp),
      run_append]

/-- C5 witness: a pending task whose parsed remind_at 5 lies before now =
10 is armed with delay zero by a reconcile that starts from an empty
registry. -/
theorem C5_delay_clamp_and_skip_witness :
    (⟨0, "a", "R", 0⟩ : Job) ∈
      (schedule_pending_reminders
          (fun s => if s == "R" then some (5 : Int) else none) 10 0
          ([] ++ (⟨"a", "T", "high", "pending", some ("R"), none, "c",
            none⟩ : Task) :: [])
          ⟨[], [], []⟩).scheduled_log :=
  (C5_delay_clamp_and_skip
      (fun s => if s == "R" then some (5 : Int) else none) 10 0
      ⟨[], [], []⟩).2.1 []
    ⟨"a", "T", "high", "pending", some ("R"), none, "c", none⟩ [] ("R") 5
    (by decide) (by decide) rfl (by decide) (by decide) rfl

/-- C6: reminder reconciliation is idempotent.  With unique task ids,
running schedule_pending_reminders a second time over the same store
state leaves the whole scheduler state (registry, armed-timer log,
cancelled-timer log) exactly as the first run left it; one iteration
leaves a live timer whose recorded remind_at equals the task's current
remind_at untouched; and when the recorded value differs the old timer is
cancelled and a replacement armed in the same iteration. -/
theorem C6_reconcile_idempotent (parse : String → Option Int)
    (now chat_id : Int) (tasks : List Task) (st : SchedulerState)
    (hnd : (tasks.map Task.id).Nodup) :
    schedule_pending_reminders parse now chat_id tasks
        (schedule_pending_reminders parse now chat_id tasks st) =
      schedule_pending_reminders parse now chat_id tasks st ∧
    (∀ (t : Task) (ra : String) (j : Job), t.remind_at = some ra →
      dictGet st.reminder_jobs (chat_id, t.id) = some j → j.remind_at = ra →
      schedulePendingStep parse now chat_id st t = st) ∧
    (∀ (t : Task) (ra : String) (tv : Int) (j : Job),
      stepActive parse t = true → t.remind_at = some ra →
      parse ra = some tv →
      dictGet st.reminder_jobs (chat_id, t.id) = some j →
      j.remind_at ≠ ra →
      schedulePendingStep parse now chat_id st t =
        ⟨dictSet st.reminder_jobs (chat_id, t.id)
            (armJob chat_id t.id ra tv now),
         st.scheduled_log ++ [armJob chat_id t.id ra tv now],
         st.cancelled_log ++ [j]⟩) := by
  refine ⟨?_,
    fun t ra j hra hd hj =>
      step_of_matching parse now chat_id st t ra j hra hd hj,
    fun t ra tv j hact hra hp hd hj =>
      step_of_mismatch parse now chat_id st t ra tv j hact hra hp hd hj⟩
  apply run_fixed
  intro t ht hact ra hra
  exact run_own_key_after parse now chat_id tasks st hnd t ht hact ra hra

/-- C6 witness: a concrete one-task chat; the second reconcile run is a
no-op on the state produced by the first. -/
theorem C6_reconcile_idempotent_witness :
    schedule_pending_reminders
        (fun s => if s == "R" then some (100 : Int) else none) 0 0
        [⟨"a", "T", "high", "pending", some ("R"), none, "c", none⟩]
        (schedule_pending_reminders
          (fun s => if s == "R" then some (100 : Int) else none) 0 0
          [⟨"a", "T", "high", "pending", some ("R"), none, "c", none⟩]
          ⟨[], [], []⟩) =
      schedule_pending_reminders
        (fun s => if s == "R" then some (100 : Int) else none) 0 0
        [⟨"a", "T", "high", "pending", some ("R"), none, "c", none⟩]
        ⟨[], [], []⟩ :=
  (C6_reconcile_idempotent
      (fun s => if s == "R" then some (100 : Int) else none) 0 0
      [⟨"a", "T", "high", "pending", some ("R"), none, "c", none⟩]
      ⟨[], [], []⟩ (by decide)).1

lemma set_reminder_spec (tid ra : String) :
    ∀ (tasks : List Task) (t2 : Task),
      (set_reminder tasks tid ra).2 = some t2 →
      t2.remind_at = some ra ∧ t2.reminded_at = none ∧
        t2 ∈ (set_reminder tasks tid ra).1 ∧ t2.id = tid := by
  intro tasks
  induction tasks with
  | nil => intro t2 h; cases h
  | cons t rest ih =>
    intro t2 h
    cases ht : (t.id == tid) with
    | true =>
      simp only [set_reminder, ht, if_true] at h ⊢
      cases h
      exact ⟨rfl, rfl, List.mem_cons_self _ _, by simpa using ht⟩
    | false =>
      simp only [set_reminder, ht, if_false] at h ⊢
      rcases ih t2 h with ⟨h1, h2, h3, h4⟩
      exact ⟨h1, h2, List.mem_cons_of_mem t h3, h4⟩

/-- C8: the reminded_at fencepost.  (a) If every task bearing an id has a
truthy reminded_at, no reconcile run ever arms a timer with that task id
(any logged job with the id predates the run).  (b) set_reminder on an
existing task stores the new remind_at and unconditionally resets
reminded_at to None, and the updated task is eligible for scheduling
again whenever it is not completed and the new value is non-empty and
parseable, which re-arms it for one future fire at the new value. -/
theorem C8_reminded_fencepost (parse : String → Option Int)
    (now chat_id : Int) (st : SchedulerState) :
    (∀ (tasks : List Task) (tid : String),
      (∀ t ∈ tasks, t.id = tid → strTruthy t.reminded_at = true) →
      ∀ j ∈ (schedule_pending_reminders parse now chat_id tasks
          st).scheduled_log,
        j.task_id = tid → j ∈ st.scheduled_log) ∧
    (∀ (tasks : List Task) (tid ra : String) (t2 : Task),
      (set_reminder tasks tid ra).2 = some t2 →
      t2.remind_at = some ra ∧ t2.reminded_at = none ∧
        t2 ∈ (set_reminder tasks tid ra).1 ∧
        (t2.status ≠ "completed" → ra ≠ "" → (parse ra).isSome = true →
          stepActive parse t2 = true)) := by
  constructor
  · intro tasks tid h j hj hjt
    rcases run_scheduled_sub parse now chat_id tasks st j hj with hin |
      ⟨t, ht, hact, ra, tv, hra, hp, hje⟩
    · exact hin
    · exfalso
      have hid : t.id = tid := by rw [← hjt, hje]; rfl
      have := stepActive_false_of_reminded parse t (h t ht hid)
      rw [hact] at this
      cases this
  · intro tasks tid ra t2 h
    rcases set_reminder_spec tid ra tasks t2 h with ⟨h1, h2, h3, _⟩
    refine ⟨h1, h2, h3, fun hs hne hp => ?_⟩
    exact stepActive_of_fields parse t2 ra h1 hne (by rw [h2]; rfl) hs hp

/-- C8 witness: set_reminder on a concrete already-reminded task resets
reminded_at and yields a task that schedules again. -/
theorem C8_reminded_fencepost_witness :
    (set_reminder
        [⟨"a", "T", "low", "pending", some ("Old"), some ("fired"), "c",
          none⟩] ("a") ("New")).2 =
      some ⟨"a", "T", "low", "pending", some ("New"), none, "c", none⟩ ∧
    stepActive (fun s => if s == "New" then some (9 : Int) else none)
      ⟨"a", "T", "low", "pending", some ("New"), none, "c", none⟩ = true :=
  ⟨by decide,
   ((C8_reminded_fencepost
        (fun s => if s == "New" then some (9 : Int) else none) 0 0
        ⟨[], [], []⟩).2
      [⟨"a", "T", "low", "pending", some ("Old"), some ("fired"), "c",
        none⟩] ("a") ("New")
      ⟨"a", "T", "low", "pending", some ("New"), none, "c", none⟩
      (by decide)).2.2.2 (by decide) (by decide) (by decide)⟩

/-- C3: fire semantics of reminder_callback with a succeeding delivery.
On fire the task is re-read; a missing task, a truthy reminded_at or a
completed status, or a remind_at differing from the value the timer was
armed with all make the fire a no-op with no message, no store write and
no registry change.  Otherwise exactly one message is sent, the task's
reminded_at is written, the registry entry for (chat_id, task_id) is
popped (gone when the registry keys were distinct), and a second fire
against the updated store is a no-op for any later clock or registry, so
the notification for a fixed remind_at value is delivered at most once. -/
theorem C3_reminder_fire_semantics (nowStr : String) (chat_id : Int)
    (task_id remind_at : String) (tasks : List Task)
    (jobs : List ((Int × String) × Job))
    (htid : task_id ≠ "") (hrne : remind_at ≠ "") :
    (tasks.find? (fun t => t.id == task_id) = none →
      reminder_callback true nowStr chat_id task_id remind_at tasks jobs =
        ⟨tasks, jobs, [], false⟩) ∧
    (∀ task, tasks.find? (fun t => t.id == task_id) = some task →
      ((strTruthy task.reminded_at = true ∨ task.status = "completed") →
        reminder_callback true nowStr chat_id task_id remind_at tasks jobs =
          ⟨tasks, jobs, [], false⟩) ∧
      (task.remind_at ≠ some remind_at →
        reminder_callback true nowStr chat_id task_id remind_at tasks jobs =
          ⟨tasks, jobs, [], false⟩) ∧
      (strTruthy task.reminded_at = false → task.status ≠ "completed" →
       task.remind_at = some remind_at →
        reminder_callback true nowStr chat_id task_id remind_at tasks jobs =
          ⟨mark_reminded tasks task_id nowStr,
           dictPop jobs (chat_id, task_id),
           ["Reminder: " ++ task.title], false⟩ ∧
        (mark_reminded tasks task_id nowStr).find?
            (fun t => t.id == task_id) =
          some { task with reminded_at := some nowStr } ∧
        ((jobs.map Prod.fst).Nodup →
          dictGet (dictPop jobs (chat_id, task_id)) (chat_id, task_id) =
            none) ∧
        (nowStr ≠ "" → ∀ (dOk : Bool) (nowStr2 : String)
            (jobs2 : List ((Int × String) × Job)),
          reminder_callback dOk nowStr2 chat_id task_id remind_at
              (mark_reminded tasks task_id nowStr) jobs2 =
            ⟨mark_reminded tasks task_id nowStr, jobs2, [], false⟩))) := by
  have hguard : (task_id == "" || remind_at == "") = false := by
    simp [htid, hrne]
  constructor
  · intro hnone
    simp [reminder_callback, hguard, hnone]
  · intro task hfind
    refine ⟨?_, ?_, ?_⟩
    · intro hcase
      have hc : (strTruthy task.reminded_at || task.status == "completed") =
          true := by
        rcases hcase with h | h
        · simp [h]
        · simp [h]
      simp [reminder_callback, hguard, hfind, hc]
    · intro hne
      have hc : (task.remind_at == some remind_at) = false := by
        simpa using hne
      by_cases hrem : (strTruthy task.reminded_at ||
          task.status == "completed") = true
      · simp [reminder_callback, hguard, hfind, hrem]
      · simp only [Bool.not_eq_true] at hrem
        simp [reminder_callback, hguard, hfind, hrem, hc]
    · intro hrem hst hmatch
      have hc1 : (strTruthy task.reminded_at || task.status == "completed") =
          false := by simp [hrem, hst]
      have hc2 : (task.remind_at == some remind_at) = true := by
        simp [hmatch]
      refine ⟨by simp [reminder_callback, hguard, hfind, hc1, hc2],
        find?_mark_reminded task_id nowStr tasks task hfind, ?_, ?_⟩
      · intro hnd
        exact dictGet_dictPop_self (chat_id, task_id) jobs hnd
      · intro hns dOk nowStr2 jobs2
        have hfind2 := find?_mark_reminded task_id nowStr tasks task hfind
        have hrem2 : strTruthy ({ task with reminded_at := some nowStr } :
            Task).reminded_at = true := by
          simp [strTruthy, hns]
        have hc3 : (strTruthy ({ task with reminded_at := some nowStr } :
              Task).reminded_at ||
            ({ task with reminded_at := some nowStr } : Task).status ==
              "completed") = true := by
          simp [hrem2]
        simp [reminder_callback, hguard, hfind2, hc3]

/-- C3 witness: a concrete eligible task fires once; the message is sent,
the store write happens and the registry entry is popped. -/
theorem C3_reminder_fire_semantics_witness :
    reminder_callback true ("2024-01-01T09:00:05") 7 ("a")
        ("2024-01-01T09:00:00")
        [⟨"a", "Call mom", "high", "pending",
          some ("2024-01-01T09:00:00"), none, "c", none⟩]
        [((7, "a"), ⟨7, "a", "2024-01-01T09:00:00", 0⟩)] =
      ⟨mark_reminded
          [⟨"a", "Call mom", "high", "pending",
            some ("2024-01-01T09:00:00"), none, "c", none⟩] ("a")
          ("2024-01-01T09:00:05"),
       dictPop [((7, "a"), ⟨7, "a", "2024-01-01T09:00:00", 0⟩)] (7, "a"),
       ["Reminder: Call mom"], false⟩ :=
  (((C3_reminder_fire_semantics ("2024-01-01T09:00:05") 7 ("a")
        ("2024-01-01T09:00:00")
        [⟨"a", "Call mom", "high", "pending",
          some ("2024-01-01T09:00:00"), none, "c", none⟩]
        [((7, "a"), ⟨7, "a", "2024-01-01T09:00:00", 0⟩)]
        (by decide) (by decide)).2
      ⟨"a", "Call mom", "high", "pending", some ("2024-01-01T09:00:00"),
        none, "c", none⟩ (by decide)).2.2
    (by decide) (by decide) (by decide)).1

/-- C4 counterexample: a concrete eligible task whose delivery fails.
Contrary to the claim, the fired state is not committed: the exception
propagates, reminded_at stays unset and the registry entry survives. -/
theorem C4_counterexample :
    reminder_callback false ("2024-01-01T09:00:05") 7 ("a") ("R")
        [⟨"a", "T", "low", "pending", some ("R"), none, "c", none⟩]
        [((7, "a"), ⟨7, "a", "R", 0⟩)] =
      ⟨[⟨"a", "T", "low", "pending", some ("R"), none, "c", none⟩],
       [((7, "a"), ⟨7, "a", "R", 0⟩)], [], true⟩ ∧
    (⟨"a", "T", "low", "pending", some ("R"), none, "c", none⟩ :
        Task).reminded_at = none ∧
    dictGet [((7, "a"), ⟨7, "a", "R", 0⟩)] (7, "a") =
      some ⟨7, "a", "R", 0⟩ := by
  decide

/-- C4 (amended): when the delivery call raises inside reminder_callback,
nothing is committed: the exception propagates before mark_reminded runs,
so the task list and the registry are unchanged and no message was sent;
moreover the surviving registry entry still records the armed remind_at,
so a subsequent reconcile iteration for this task leaves the scheduler
state untouched and no retry is ever armed. -/
theorem C4_delivery_failure_amended (nowStr : String) (chat_id : Int)
    (task_id remind_at : String) (tasks : List Task)
    (jobs : List ((Int × String) × Job)) (task : Task)
    (htid : task_id ≠ "") (hrne : remind_at ≠ "")
    (hfind : tasks.find? (fun t => t.id == task_id) = some task)
    (hrem : strTruthy task.reminded_at = false)
    (hst : task.status ≠ "completed")
    (hmatch : task.remind_at = some remind_at) :
    reminder_callback false nowStr chat_id task_id remind_at tasks jobs =
      ⟨tasks, jobs, [], true⟩ ∧
    (∀ (parse : String → Option Int) (now : Int) (sl cl : List Job)
        (j : Job),
      dictGet jobs (chat_id, task.id) = some j → j.remind_at = remind_at →
      schedulePendingStep parse now chat_id ⟨jobs, sl, cl⟩ task =
        ⟨jobs, sl, cl⟩) := by
  have hguard : (task_id == "" || remind_at == "") = false := by
    simp [htid, hrne]
  have hc1 : (strTruthy task.reminded_at || task.status == "completed") =
      false := by simp [hrem, hst]
  have hc2 : (task.remind_at == some remind_at) = true := by simp [hmatch]
  refine ⟨by simp [reminder_callback, hguard, hfind, hc1, hc2], ?_⟩
  intro parse now sl cl j hd hj
  exact step_of_matching parse now chat_id ⟨jobs, sl, cl⟩ task remind_at j
    hmatch hd hj

/-- C4 amended witness at the concrete failed fire. -/
theorem C4_delivery_failure_amended_witness :
    reminder_callback false ("now") 7 ("b") ("R2")
        [⟨"b", "T", "low", "pending", some ("R2"), none, "c", none⟩]
        [((7, "b"), ⟨7, "b", "R2", 0⟩)] =
      ⟨[⟨"b", "T", "low", "pending", some ("R2"), none, "c", none⟩],
       [((7, "b"), ⟨7, "b", "R2", 0⟩)], [], true⟩ ∧
    schedulePendingStep (fun s => if s == "R2" then some (3 : Int) else none)
        0 7 ⟨[((7, "b"), ⟨7, "b", "R2", 0⟩)], [], []⟩
        ⟨"b", "T", "low", "pending", some ("R2"), none, "c", none⟩ =
      ⟨[((7, "b"), ⟨7, "b", "R2", 0⟩)], [], []⟩ :=
  ⟨(C4_delivery_failure_amended ("now") 7 ("b") ("R2")
      [⟨"b", "T", "low", "pending", some ("R2"), none, "c", none⟩]
      [((7, "b"), ⟨7, "b", "R2", 0⟩)]
      ⟨"b", "T", "low", "pending", some ("R2"), none, "c", none⟩
      (by decide) (by decide) (by decide) (by decide) (by decide)
      (by decide)).1,
   (C4_delivery_failure_amended ("now") 7 ("b") ("R2")
      [⟨"b", "T", "low", "pending", some ("R2"), none, "c", none⟩]
      [((7, "b"), ⟨7, "b", "R2", 0⟩)]
      ⟨"b", "T", "low", "pending", some ("R2"), none, "c", none⟩
      (by decide) (by decide) (by decide) (by decide) (by decide)
      (by decide)).2
     (fun s => if s == "R2" then some (3 : Int) else none) 0 [] []
     ⟨7, "b", "R2", 0⟩ (by decide) (by decide)⟩

/-- C9: the digest lines are recomputed from the given task store: the
body lists exactly the tasks whose status is pending (a permutation of
the pending filter), in non-decreasing priority rank (high 0, then medium
1, then low 2), and for every rank the sub-sequence of that rank equals
the pending tasks of that rank in their original insertion order, so ties
are stable. -/
theorem C9_digest_content (tasks : List Task) :
    daily_summary_lines tasks =
      ["Daily summary",
       "Pending: " ++
         toString (tasks.filter (fun t => t.status == "pending")).length ++
         " (High: " ++
         toString ((tasks.filter (fun t => t.status == "pending")).filter
           (fun t => t.priority == "high")).length ++ ")"] ++
        (sorted_pending tasks).map digest_line ∧
    (sorted_pending tasks).Perm
      (tasks.filter (fun t => t.status == "pending")) ∧
    List.Sorted taskLE (sorted_pending tasks) ∧
    (∀ r : Int,
      (sorted_pending tasks).filter
          (fun t => priority_order_get t.priority == r) =
        (tasks.filter (fun t => t.status == "pending")).filter
          (fun t => priority_order_get t.priority == r)) :=
  ⟨rfl, List.perm_insertionSort taskLE _,
   List.sorted_insertionSort taskLE _,
   fun r => filter_insertionSort r _⟩

/-- C10: the add_task tool rejects an empty or missing title with an
error and creates no task; otherwise it appends exactly one task whose
priority is always one of low, medium, high, with any out-of-range or
missing priority argument silently coerced to "medium" and an in-range
one stored as given. -/
theorem C10_add_task_validation (tasks : List Task) (newId nowIso : String)
    (titleArg priorityArg : Option String) :
    (titleArg.getD ("") = "" →
      add_task tasks newId nowIso titleArg priorityArg =
        (tasks, AddTaskReply.errorReply ("Task title is required"))) ∧
    (titleArg.getD ("") ≠ "" →
      ∃ task, add_task tasks newId nowIso titleArg priorityArg =
          (tasks ++ [task], AddTaskReply.okReply task) ∧
        (task.priority = "low" ∨ task.priority = "medium" ∨
          task.priority = "high") ∧
        (¬(priorityArg.getD ("medium") = "low" ∨
            priorityArg.getD ("medium") = "medium" ∨
            priorityArg.getD ("medium") = "high") →
          task.priority = "medium") ∧
        ((priorityArg.getD ("medium") = "low" ∨
            priorityArg.getD ("medium") = "medium" ∨
            priorityArg.getD ("medium") = "high") →
          task.priority = priorityArg.getD ("medium")) ∧
        task.title = titleArg.getD ("") ∧ task.status = "pending" ∧
        task.id = newId ∧ task.remind_at = none ∧
        task.reminded_at = none ∧ task.created_at = nowIso ∧
        task.completed_at = none) := by
  constructor
  · intro ht
    simp [add_task, ht]
  · intro ht
    have htb : (titleArg.getD ("") == "") = false := by simpa using ht
    by_cases hp : priorityArg.getD ("medium") = "low" ∨
        priorityArg.getD ("medium") = "medium" ∨
        priorityArg.getD ("medium") = "high"
    · have hpb : (priorityArg.getD ("medium") == "low" ||
          priorityArg.getD ("medium") == "medium" ||
          priorityArg.getD ("medium") == "high") = true := by
        rcases hp with h | h | h <;> simp [h]
      refine ⟨⟨newId, titleArg.getD (""),
          pyLower (priorityArg.getD ("medium")), "pending", none, none,
          nowIso, none⟩, ?_, ?_, ?_, ?_, rfl, rfl, rfl, rfl, rfl, rfl,
          rfl⟩
      · simp [add_task, storage_add_task, htb, hpb]
      · rcases hp with h | h | h <;> rw [h] <;> simp [pyLower]
      · intro hc; exact absurd hp hc
      · intro _
        rcases hp with h | h | h <;> rw [h] <;> rfl
    · have hpb : (priorityArg.getD ("medium") == "low" ||
          priorityArg.getD ("medium") == "medium" ||
          priorityArg.getD ("medium") == "high") = false := by
        push_neg at hp
        simp [hp.1, hp.2.1, hp.2.2]
      refine ⟨⟨newId, titleArg.getD (""), pyLower ("medium"), "pending",
          none, none, nowIso, none⟩, ?_, ?_, ?_, ?_, rfl, rfl, rfl, rfl,
          rfl, rfl, rfl⟩
      · simp [add_task, storage_add_task, htb, hpb]
      · right; left; rfl
      · intro _; rfl
      · intro hc; exact absurd hc hp

/-- C10 witness: a concrete call with an out-of-range priority "urgent"
stores priority "medium"; a concrete empty title is rejected. -/
theorem C10_add_task_validation_witness :
    add_task [] ("id1") ("2024-01-01") (some ("Buy milk"))
        (some ("urgent")) =
      ([⟨"id1", "Buy milk", "medium", "pending", none, none,
         "2024-01-01", none⟩],
       AddTaskReply.okReply
         ⟨"id1", "Buy milk", "medium", "pending", none, none,
          "2024-01-01", none⟩) ∧
    add_task [] ("id1") ("2024-01-01") none (some ("high")) =
      ([], AddTaskReply.errorReply ("Task title is required")) := by
  constructor
  · have h := (C10_add_task_validation [] ("id1") ("2024-01-01")
        (some ("Buy milk")) (some ("urgent"))).2 (by decide)
    rcases h with ⟨task, he, _, hmed, _, hti, hst, hid, hra, hrem, hca, hco⟩
    have hpr : task.priority = "medium" := hmed (by decide)
    have : task = ⟨"id1", "Buy milk", "medium", "pending", none, none,
        "2024-01-01", none⟩ := by
      cases task
      simp only at hpr hti hst hid hra hrem hca hco
      simp [hpr, hti, hst, hid, hra, hrem, hca, hco]
    rw [this] at he
    exact he
  · exact (C10_add_task_validation [] ("id1") ("2024-01-01") none
      (some ("high"))).1 (by decide)

end Claudia
